import Mathlib

/-!
Shallow embedding of the homeGPT model-manager core:
the backend data model (pkg/models/models.go), the retry/backoff and
polling utility (internal/utils/retry.go), and the switching controller
(internal/switcher/switcher.go).  Go machine integers that can be
non-positive (MaxAttempts, maxRetries) are embedded as Int; float64
memory quantities are embedded as Rat; errors are embedded as explicit
result values; the vLLM HTTP client is embedded as a response oracle and
every client call is recorded in an explicit trace.
-/

namespace HomeGPT

/-! ## Data model (pkg/models/models.go) -/

/-- ModelStatus represents the current state of a model. -/
inductive ModelStatus where
  | active
  | sleeping
  | switching
  | error
  | disabled
deriving DecidableEq, Repr

/-- StartupMode determines how a model should be initialized. -/
inductive StartupMode where
  | disabled
  | sleep
  | active
deriving DecidableEq, Repr

/-- Model represents a vLLM model configuration and state.  The mutable
fields are `status` and `lastActive`; `lastActive` embeds the Go
`*time.Time` as `Option Nat` (absolute time values are abstracted to
Nat, `none` is the nil pointer). -/
structure Model where
  id : String
  name : String
  containerName : String
  port : Nat
  hostPort : Nat
  gpuMemoryGB : Rat
  startupMode : StartupMode
  status : ModelStatus
  lastActive : Option Nat
deriving DecidableEq, Repr

/-- MarkActive sets status to active and updates last active time
(time.Now() is embedded as the explicit argument `now`). -/
def Model.markActive (m : Model) (now : Nat) : Model :=
  { m with status := ModelStatus.active, lastActive := some now }

/-- MarkSleeping sets status to sleeping. -/
def Model.markSleeping (m : Model) : Model :=
  { m with status := ModelStatus.sleeping }

/-- MarkSwitching sets status to switching. -/
def Model.markSwitching (m : Model) : Model :=
  { m with status := ModelStatus.switching }

/-- MarkError sets status to error. -/
def Model.markError (m : Model) : Model :=
  { m with status := ModelStatus.error }

/-- MarkDisabled sets status to disabled. -/
def Model.markDisabled (m : Model) : Model :=
  { m with status := ModelStatus.disabled }

/-- One status mutation of a Model, as exposed by the Mark methods. -/
inductive StatusMutation where
  | mkActive (now : Nat)
  | mkSleeping
  | mkSwitching
  | mkError
  | mkDisabled
deriving DecidableEq, Repr

/-- Apply one Mark method. -/
def applyMutation (m : Model) : StatusMutation → Model
  | StatusMutation.mkActive now => m.markActive now
  | StatusMutation.mkSleeping => m.markSleeping
  | StatusMutation.mkSwitching => m.markSwitching
  | StatusMutation.mkError => m.markError
  | StatusMutation.mkDisabled => m.markDisabled

/-- Apply a sequence of Mark methods in order. -/
def applyMutations (m : Model) (l : List StatusMutation) : Model :=
  l.foldl applyMutation m

/-! ## Retry / poll utility (internal/utils/retry.go)

`RetryWithBackoff` is embedded with the operation as a function of the
attempt index (the delays and the context are timing-only and do not
affect which attempts run or the returned error when the context is
never cancelled, which is the setting of the claims).  The embedding
additionally returns how many times the operation was invoked. -/

/-- Loop body of RetryWithBackoff: `fuel` is the number of remaining
attempts, `idx` the index of the next attempt, `lastErr` the last
observed failure.  `fn idx = none` means the attempt succeeded
(err == nil), `some e` that it failed with `e`. -/
def retryAux {E : Type} (fn : Nat → Option E) :
    Nat → Nat → Option E → Option E × Nat
  | 0, idx, lastErr => (lastErr, idx)
  | fuel + 1, idx, _ =>
    match fn idx with
    | none => (none, idx + 1)
    | some e => retryAux fn fuel (idx + 1) (some e)

/-- RetryWithBackoff retries a function until it succeeds or max
attempts are reached; returns the final error (`none` = nil) and the
number of invocations of the operation. -/
def retryWithBackoff {E : Type} (maxAttempts : Int) (fn : Nat → Option E) :
    Option E × Nat :=
  retryAux fn maxAttempts.toNat 0 none

/-- Error type produced by the closure PollUntil hands to
RetryWithBackoff: either the condition's own error, or the internal
retryableError "condition not met". -/
inductive PollErr (E : Type) where
  | condErr (e : E)
  | conditionNotMet
deriving DecidableEq, Repr

/-- PollUntil polls a condition function until it returns true; a
condition returning `(ok, err)` is embedded as a function of the
attempt index. -/
def pollUntil {E : Type} (maxAttempts : Int)
    (condition : Nat → Bool × Option E) : Option (PollErr E) × Nat :=
  retryWithBackoff maxAttempts (fun i =>
    match condition i with
    | (_, some e) => some (PollErr.condErr e)
    | (false, none) => some PollErr.conditionNotMet
    | (true, none) => none)

/-! ## Switcher (internal/switcher/switcher.go)

The vLLM client (internal/vllm) is embedded as a response oracle:
`Sleep` / `WakeUp` either succeed or fail at the transport level
(`Bool`), while the query calls `Health` / `IsSleeping` may also be
repeated, so their responses are indexed by the attempt number and
`Option Bool` distinguishes a transport error (`none`) from an answer.
Every call the switcher issues is recorded in a trace. -/

/-- One call issued against a backend's vLLM server, identified the way
the Go client addresses it: container name and port. -/
inductive ClientCall where
  | sleep (container : String) (port : Nat) (level : Nat)
  | wakeUp (container : String) (port : Nat)
  | health (container : String) (port : Nat)
  | isSleeping (container : String) (port : Nat)
deriving DecidableEq, Repr

/-- Response oracle for the vLLM client interface
{Sleep, WakeUp, Health, IsSleeping}. -/
structure VLLMClient where
  sleepOk : String → Nat → Nat → Bool
  wakeUpOk : String → Nat → Bool
  health : String → Nat → Nat → Option Bool
  isSleeping : String → Nat → Nat → Option Bool

/-- The state the Switcher protects with mapMu: the registry of models
(the Go map is embedded as a list with unique ids) and the believed
active model id ("" = none). -/
structure SwitcherState where
  models : List Model
  activeModel : String
deriving DecidableEq, Repr

/-- Registry lookup `s.models[modelID]` (`none` embeds a missing key,
which the Go switcher never checks before dereferencing). -/
def findModel (st : SwitcherState) (modelID : String) : Option Model :=
  st.models.find? (fun m => m.id == modelID)

/-- In-place mutation of the model stored under `modelID` (the Go map
holds pointers, so a Mark method mutates the registry entry). -/
def updateModel (st : SwitcherState) (modelID : String)
    (f : Model → Model) : SwitcherState :=
  { st with models := st.models.map (fun m => if m.id = modelID then f m else m) }

/-- determineSleepLevel decides whether to use level 1 or level 2 sleep
based on available system RAM (`availableRAMGB` embeds the value the
RAM fetcher reports). -/
def determineSleepLevel (availableRAMGB : Rat) (model : Model) : Nat :=
  if availableRAMGB ≥ model.gpuMemoryGB then 1 else 2

/-- sleepModel puts a model into sleep mode.  Returns the new state, the
trace of client calls, and whether it returned nil (`true`) or the
"failed to sleep model" error (`false`); the outer `none` embeds the nil
pointer dereference when `modelID` is not in the registry.  The
IsSleeping confirmation poll is the Go `utils.PollUntil` with
MaxAttempts 10; its failure is only logged, the model is marked
Sleeping regardless. -/
def sleepModel (c : VLLMClient) (availableRAMGB : Rat)
    (st : SwitcherState) (modelID : String) :
    Option (SwitcherState × List ClientCall × Bool) :=
  match findModel st modelID with
  | none => none
  | some model =>
    let st1 := updateModel st modelID Model.markSwitching
    let sleepLevel := determineSleepLevel availableRAMGB model
    if c.sleepOk model.containerName model.port sleepLevel then
      let pollCount := (pollUntil 10 (fun i =>
        match c.isSleeping model.containerName model.port i with
        | none => (false, some ())
        | some b => (b, none))).2
      some (updateModel st1 modelID Model.markSleeping,
        ClientCall.sleep model.containerName model.port sleepLevel ::
          List.replicate pollCount
            (ClientCall.isSleeping model.containerName model.port),
        true)
    else
      some (updateModel st1 modelID Model.markError,
        [ClientCall.sleep model.containerName model.port sleepLevel],
        false)

/-- The two errors activateModel can return: "failed to wake up model"
and "model failed to become healthy after N retries". -/
inductive ActivateError where
  | wakeUpFailed
  | notHealthy
deriving DecidableEq, Repr

/-- The health-check loop of activateModel: up to `fuel` probes
(`maxRetries` in Go), stopping at the first `err == nil && healthy`
response.  Returns the trace of Health calls and whether a healthy
response was seen. -/
def healthLoop (c : VLLMClient) (container : String) (port : Nat) :
    Nat → Nat → List ClientCall × Bool
  | 0, _ => ([], false)
  | fuel + 1, idx =>
    match c.health container port idx with
    | some true => ([ClientCall.health container port], true)
    | _ =>
      let r := healthLoop c container port fuel (idx + 1)
      (ClientCall.health container port :: r.1, r.2)

/-- activateModel wakes up a model from sleep mode: WakeUp, then poll
Health up to `maxRetries` times.  `none` embeds the nil pointer
dereference on a missing id. -/
def activateModel (c : VLLMClient) (maxRetries : Int) (now : Nat)
    (st : SwitcherState) (modelID : String) :
    Option (SwitcherState × List ClientCall × Option ActivateError) :=
  match findModel st modelID with
  | none => none
  | some model =>
    let st1 := updateModel st modelID Model.markSwitching
    if c.wakeUpOk model.containerName model.port then
      let r := healthLoop c model.containerName model.port maxRetries.toNat 0
      if r.2 then
        some (updateModel st1 modelID (fun m => m.markActive now),
          ClientCall.wakeUp model.containerName model.port :: r.1, none)
      else
        some (updateModel st1 modelID Model.markError,
          ClientCall.wakeUp model.containerName model.port :: r.1,
          some ActivateError.notHealthy)
    else
      some (updateModel st1 modelID Model.markError,
        [ClientCall.wakeUp model.containerName model.port],
        some ActivateError.wakeUpFailed)

/-- The errors SwitchModel can return: "model not found", "model is
disabled and cannot be activated", "failed to sleep current model: %w",
"failed to activate target model: %w" (carrying the inner error). -/
inductive SwitchError where
  | notFound
  | disabled
  | sleepFailed
  | activateFailed (inner : ActivateError)
deriving DecidableEq, Repr

/-- SwitchModel switches from the current active model to the target
model.  Result: new state, trace of client calls, and the returned
error (`none` = nil = success); the outer `none` embeds a nil pointer
dereference inside sleepModel/activateModel. -/
def switchModel (c : VLLMClient) (availableRAMGB : Rat) (maxRetries : Int)
    (now : Nat) (st : SwitcherState) (targetModelID : String) :
    Option (SwitcherState × List ClientCall × Option SwitchError) :=
  let currentActive := st.activeModel
  match findModel st targetModelID with
  | none => some (st, [], some SwitchError.notFound)
  | some targetModel =>
    if targetModel.startupMode = StartupMode.disabled then
      some (st, [], some SwitchError.disabled)
    else if targetModelID = currentActive then
      some (st, [], none)
    else
      let step1 : Option (SwitcherState × List ClientCall × Bool) :=
        if currentActive = "" then some (st, [], true)
        else sleepModel c availableRAMGB st currentActive
      match step1 with
      | none => none
      | some (st1, tr1, false) => some (st1, tr1, some SwitchError.sleepFailed)
      | some (st1, tr1, true) =>
        match activateModel c maxRetries now st1 targetModelID with
        | none => none
        | some (st2, tr2, some e) =>
          if currentActive = "" then
            some (st2, tr1 ++ tr2, some (SwitchError.activateFailed e))
          else
            match activateModel c maxRetries now st2 currentActive with
            | none => none
            | some (st3, tr3, _) =>
              some (st3, tr1 ++ tr2 ++ tr3, some (SwitchError.activateFailed e))
        | some (st2, tr2, none) =>
          some ({ st2 with activeModel := targetModelID }, tr1 ++ tr2, none)

/-- One pass of resyncModels over the model list, threading the Go
locals `lastActive` (la) and the presence of an error (ae).  The probe
is one IsSleeping call per non-disabled model; a probe error marks the
model Error and continues. -/
def resyncGo (probe : String → Nat → Option Bool) (now : Nat) :
    List Model → String → Bool → List Model × String × Bool
  | [], la, ae => ([], la, ae)
  | m :: rest, la, ae =>
    if m.startupMode = StartupMode.disabled then
      let r := resyncGo probe now rest la ae
      (m :: r.1, r.2)
    else
      match probe m.containerName m.port with
      | none =>
        let r := resyncGo probe now rest la true
        (m.markError :: r.1, r.2)
      | some true =>
        let r := resyncGo probe now rest la ae
        (m.markSleeping :: r.1, r.2)
      | some false =>
        let la2 := if la = "" then m.id else la
        let r := resyncGo probe now rest la2 ae
        (m.markActive now :: r.1, r.2)

/-- resyncModels queries each configured vLLM endpoint and updates the
in-memory model statuses; the active id becomes the first model seen
awake, or "" when none is.  The second component records whether any
probe failed (the returned anyErr).  The Go map iteration is embedded
as the list order. -/
def resyncModels (probe : String → Nat → Option Bool) (now : Nat)
    (st : SwitcherState) : SwitcherState × Bool :=
  let r := resyncGo probe now st.models "" false
  ({ models := r.1,
     activeModel := if r.2.1 ≠ "" then r.2.1 else "" },
   r.2.2)

/-! ## Concrete fixtures

A small concrete configuration (two enabled backends and one disabled
one) and scripted clients, used to evaluate the switcher on explicit
inputs. -/

/-- Backend "a": believed active, 16 GB footprint. -/
def wModelA : Model :=
  { id := "a"
    name := "Model A"
    containerName := "ca"
    port := 8000
    hostPort := 8001
    gpuMemoryGB := 16
    startupMode := StartupMode.active
    status := ModelStatus.active
    lastActive := some 0 }

/-- Backend "b": sleeping, 24 GB footprint. -/
def wModelB : Model :=
  { id := "b"
    name := "Model B"
    containerName := "cb"
    port := 8000
    hostPort := 8002
    gpuMemoryGB := 24
    startupMode := StartupMode.sleep
    status := ModelStatus.sleeping
    lastActive := none }

/-- Backend "d": disabled. -/
def wModelD : Model :=
  { id := "d"
    name := "Model D"
    containerName := "cd"
    port := 8000
    hostPort := 8003
    gpuMemoryGB := 8
    startupMode := StartupMode.disabled
    status := ModelStatus.disabled
    lastActive := none }

/-- Registry with "a" believed active. -/
def wState : SwitcherState :=
  { models := [wModelA, wModelB, wModelD], activeModel := "a" }

/-- A client for which every operation succeeds. -/
def wClientGood : VLLMClient :=
  { sleepOk := fun _ _ _ => true
    wakeUpOk := fun _ _ => true
    health := fun _ _ _ => some true
    isSleeping := fun _ _ _ => some true }

/-- A client whose Sleep command always fails at the transport level. -/
def wClientSleepFail : VLLMClient :=
  { wClientGood with sleepOk := fun _ _ _ => false }

/-- A client whose WakeUp command always fails (so the rollback wake
fails as well). -/
def wClientWakeFail : VLLMClient :=
  { wClientGood with wakeUpOk := fun _ _ => false }

/-- A client whose Health probe always answers unhealthy. -/
def wClientHealthFail : VLLMClient :=
  { wClientGood with health := fun _ _ _ => some false }

/-! ## Supporting lemmas -/

lemma markActive_id (m : Model) (now : Nat) : (m.markActive now).id = m.id := rfl

lemma markSleeping_id (m : Model) : m.markSleeping.id = m.id := rfl

lemma markSwitching_id (m : Model) : m.markSwitching.id = m.id := rfl

lemma markError_id (m : Model) : m.markError.id = m.id := rfl

lemma updateModel_activeModel (st : SwitcherState) (i : String) (f : Model → Model) :
    (updateModel st i f).activeModel = st.activeModel := rfl

lemma findModel_some_id {st : SwitcherState} {j : String} {m : Model}
    (h : findModel st j = some m) : m.id = j := by
  have := List.find?_some h
  simpa using this

lemma findModel_updateModel (st : SwitcherState) (i j : String) (f : Model → Model)
    (hf : ∀ m, (f m).id = m.id) :
    findModel (updateModel st i f) j =
      (findModel st j).map (fun m => if m.id = i then f m else m) := by
  show (st.models.map _).find? _ = (st.models.find? _).map _
  induction st.models with
  | nil => rfl
  | cons a l ih =>
    have hid : (if a.id = i then f a else a).id = a.id := by
      by_cases hi : a.id = i
      · rw [if_pos hi, hf a]
      · rw [if_neg hi]
    by_cases hj : a.id = j
    · have hb : (a.id == j) = true := beq_iff_eq.mpr hj
      have hb2 : ((if a.id = i then f a else a).id == j) = true := by rw [hid]; exact hb
      simp only [List.map_cons, List.find?_cons, hb, hb2]
      rfl
    · have hb : (a.id == j) = false := by simp [hj]
      have hb2 : ((if a.id = i then f a else a).id == j) = false := by rw [hid]; exact hb
      simp only [List.map_cons, List.find?_cons, hb, hb2]
      exact ih

lemma findModel_updateModel_ne {st : SwitcherState} {i j : String} {f : Model → Model}
    (hf : ∀ m, (f m).id = m.id) (hij : j ≠ i) :
    findModel (updateModel st i f) j = findModel st j := by
  rw [findModel_updateModel st i j f hf]
  cases h : findModel st j with
  | none => rfl
  | some m => simp [findModel_some_id h, hij]

lemma findModel_updateModel_self {st : SwitcherState} {i : String} {f : Model → Model}
    {m : Model} (hf : ∀ m, (f m).id = m.id) (h : findModel st i = some m) :
    findModel (updateModel st i f) i = some (f m) := by
  rw [findModel_updateModel st i i f hf, h]
  simp [findModel_some_id h]

lemma sleepModel_sleepFail {c : VLLMClient} {avail : Rat} {st : SwitcherState}
    {a : String} {mA : Model} (h : findModel st a = some mA)
    (hs : c.sleepOk mA.containerName mA.port (determineSleepLevel avail mA) = false) :
    sleepModel c avail st a =
      some (updateModel (updateModel st a Model.markSwitching) a Model.markError,
        [ClientCall.sleep mA.containerName mA.port (determineSleepLevel avail mA)],
        false) := by
  unfold sleepModel
  rw [h]
  simp [hs]

lemma sleepModel_sleepOk {c : VLLMClient} {avail : Rat} {st : SwitcherState}
    {a : String} {mA : Model} (h : findModel st a = some mA)
    (hs : c.sleepOk mA.containerName mA.port (determineSleepLevel avail mA) = true) :
    ∃ n, sleepModel c avail st a =
      some (updateModel (updateModel st a Model.markSwitching) a Model.markSleeping,
        ClientCall.sleep mA.containerName mA.port (determineSleepLevel avail mA) ::
          List.replicate n (ClientCall.isSleeping mA.containerName mA.port),
        true) := by
  refine ⟨(pollUntil 10 (fun i =>
    match c.isSleeping mA.containerName mA.port i with
    | none => (false, some ())
    | some b => (b, none))).2, ?_⟩
  unfold sleepModel
  rw [h]
  simp [hs]

lemma healthLoop_allFail {c : VLLMClient} {ct : String} {pt : Nat}
    (hh : ∀ i, c.health ct pt i ≠ some true) :
    ∀ fuel idx, healthLoop c ct pt fuel idx =
      (List.replicate fuel (ClientCall.health ct pt), false) := by
  intro fuel
  induction fuel with
  | zero => intro idx; rfl
  | succ n ih =>
    intro idx
    unfold healthLoop
    cases hcase : c.health ct pt idx with
    | none => simp [ih (idx + 1), List.replicate_succ]
    | some b =>
      cases b with
      | false => simp [ih (idx + 1), List.replicate_succ]
      | true => exact absurd hcase (hh idx)

lemma activateModel_wakeFail (c : VLLMClient) (mr : Int) (now : Nat)
    {st : SwitcherState} {t : String} {mT : Model} (h : findModel st t = some mT)
    (hw : c.wakeUpOk mT.containerName mT.port = false) :
    activateModel c mr now st t =
      some (updateModel (updateModel st t Model.markSwitching) t Model.markError,
        [ClientCall.wakeUp mT.containerName mT.port],
        some ActivateError.wakeUpFailed) := by
  unfold activateModel
  rw [h]
  simp [hw]

lemma activateModel_healthFail (c : VLLMClient) (mr : Int) (now : Nat)
    {st : SwitcherState} {t : String} {mT : Model} (h : findModel st t = some mT)
    (hw : c.wakeUpOk mT.containerName mT.port = true)
    (hh : ∀ i, c.health mT.containerName mT.port i ≠ some true) :
    activateModel c mr now st t =
      some (updateModel (updateModel st t Model.markSwitching) t Model.markError,
        ClientCall.wakeUp mT.containerName mT.port ::
          List.replicate mr.toNat (ClientCall.health mT.containerName mT.port),
        some ActivateError.notHealthy) := by
  unfold activateModel
  rw [h]
  simp [hw, healthLoop_allFail hh]

lemma activateModel_shape (c : VLLMClient) (mr : Int) (now : Nat)
    {st : SwitcherState} {t : String} {mT : Model} (h : findModel st t = some mT) :
    ∃ st2 tr r, activateModel c mr now st t =
        some (st2, ClientCall.wakeUp mT.containerName mT.port :: tr, r) ∧
      st2.activeModel = st.activeModel ∧
      ∀ j, j ≠ t → findModel st2 j = findModel st j := by
  by_cases hw : c.wakeUpOk mT.containerName mT.port = true
  · by_cases h2 : (healthLoop c mT.containerName mT.port mr.toNat 0).2 = true
    · refine ⟨updateModel (updateModel st t Model.markSwitching) t
          (fun m => m.markActive now),
        (healthLoop c mT.containerName mT.port mr.toNat 0).1, none, ?_, ?_, ?_⟩
      · unfold activateModel
        rw [h]
        simp [hw, h2]
      · simp [updateModel_activeModel]
      · intro j hj
        rw [findModel_updateModel_ne (fun m => markActive_id m now) hj,
          findModel_updateModel_ne (fun m => markSwitching_id m) hj]
    · refine ⟨updateModel (updateModel st t Model.markSwitching) t Model.markError,
        (healthLoop c mT.containerName mT.port mr.toNat 0).1,
        some ActivateError.notHealthy, ?_, ?_, ?_⟩
      · unfold activateModel
        rw [h]
        simp [hw, h2]
      · simp [updateModel_activeModel]
      · intro j hj
        rw [findModel_updateModel_ne (fun m => markError_id m) hj,
          findModel_updateModel_ne (fun m => markSwitching_id m) hj]
  · refine ⟨updateModel (updateModel st t Model.markSwitching) t Model.markError,
      [], some ActivateError.wakeUpFailed, ?_, ?_, ?_⟩
    · unfold activateModel
      rw [h]
      simp [hw]
    · simp [updateModel_activeModel]
    · intro j hj
      rw [findModel_updateModel_ne (fun m => markError_id m) hj,
        findModel_updateModel_ne (fun m => markSwitching_id m) hj]

lemma retryAux_congr {E : Type} {f g : Nat → Option E} (h : ∀ i, f i = g i) :
    ∀ fuel idx le, retryAux f fuel idx le = retryAux g fuel idx le := by
  intro fuel
  induction fuel with
  | zero => intro idx le; rfl
  | succ n ih =>
    intro idx le
    unfold retryAux
    rw [h idx]
    cases g idx with
    | none => rfl
    | some e => exact ih (idx + 1) (some e)

lemma retryAux_allFail {E : Type} (f : Nat → E) :
    ∀ (fuel idx : Nat) (le : Option E), 0 < fuel →
    retryAux (fun i => some (f i)) fuel idx le = (some (f (idx + fuel - 1)), idx + fuel) := by
  intro fuel
  induction fuel with
  | zero => intro idx le h; exact absurd h (lt_irrefl 0)
  | succ n ih =>
    intro idx le _
    show retryAux (fun i => some (f i)) n (idx + 1) (some (f idx)) =
      (some (f (idx + (n + 1) - 1)), idx + (n + 1))
    by_cases hn : 0 < n
    · rw [ih (idx + 1) (some (f idx)) hn]
      have e1 : idx + 1 + n - 1 = idx + (n + 1) - 1 := by omega
      have e2 : idx + 1 + n = idx + (n + 1) := by omega
      rw [e1, e2]
    · have hn0 : n = 0 := by omega
      subst hn0
      simp [retryAux]

/-! ## Claim theorems -/

/-- Claim C4: SwitchModel is an idempotent no-op on the active backend:
whenever the target id equals the believed-active id (for a registered,
non-disabled target, the only states the switcher ever produces),
SwitchModel returns success with an empty client-call trace and the
state — every backend's status and the active id — unchanged. -/
theorem switchModel_idempotent_noop (c : VLLMClient) (avail : Rat) (mr : Int)
    (now : Nat) (st : SwitcherState) (targetID : String) (mT : Model)
    (hft : findModel st targetID = some mT)
    (hdis : mT.startupMode ≠ StartupMode.disabled)
    (heq : targetID = st.activeModel) :
    switchModel c avail mr now st targetID = some (st, [], none) := by
  unfold switchModel
  rw [hft]
  simp [hdis, heq]

/-- Witness for C4 at a concrete state: switching to the already-active
backend "a" succeeds with no calls and no change. -/
theorem switchModel_idempotent_noop_witness :
    switchModel wClientGood 64 450 7 wState "a" = some (wState, [], none) :=
  switchModel_idempotent_noop wClientGood 64 450 7 wState "a" wModelA
    (by rfl) (by decide) (by rfl)

/-- Claim C8: an unknown target id, or a target whose startup policy is
Disabled, is rejected before any side effect: the respective error is
returned, the client-call trace is empty, and the state (every
backend's status and the active id) is unchanged. -/
theorem switchModel_rejects_unknown_disabled :
    (∀ (c : VLLMClient) (avail : Rat) (mr : Int) (now : Nat)
      (st : SwitcherState) (targetID : String),
      findModel st targetID = none →
      switchModel c avail mr now st targetID =
        some (st, [], some SwitchError.notFound)) ∧
    (∀ (c : VLLMClient) (avail : Rat) (mr : Int) (now : Nat)
      (st : SwitcherState) (targetID : String) (mT : Model),
      findModel st targetID = some mT →
      mT.startupMode = StartupMode.disabled →
      switchModel c avail mr now st targetID =
        some (st, [], some SwitchError.disabled)) := by
  constructor
  · intro c avail mr now st targetID h
    unfold switchModel
    rw [h]
  · intro c avail mr now st targetID mT h hdis
    unfold switchModel
    rw [h]
    simp [hdis]

/-- Witness for C8: the unknown id "zzz" and the disabled backend "d"
are both rejected without side effects. -/
theorem switchModel_rejects_unknown_disabled_witness :
    switchModel wClientGood 64 450 7 wState "zzz" =
      some (wState, [], some SwitchError.notFound) ∧
    switchModel wClientGood 64 450 7 wState "d" =
      some (wState, [], some SwitchError.disabled) :=
  ⟨switchModel_rejects_unknown_disabled.1 wClientGood 64 450 7 wState "zzz" (by rfl),
   switchModel_rejects_unknown_disabled.2 wClientGood 64 450 7 wState "d" wModelD
     (by rfl) (by rfl)⟩

/-- Claim C9: determineSleepLevel returns 1 when available RAM is at
least the backend's estimated memory footprint (equality included) and
2 when it is strictly less. -/
theorem determineSleepLevel_policy : ∀ (availableRAMGB : Rat) (m : Model),
    (m.gpuMemoryGB ≤ availableRAMGB → determineSleepLevel availableRAMGB m = 1) ∧
    (availableRAMGB < m.gpuMemoryGB → determineSleepLevel availableRAMGB m = 2) := by
  intro a m
  constructor
  · intro h
    unfold determineSleepLevel
    rw [if_pos h]
  · intro h
    unfold determineSleepLevel
    rw [if_neg (not_le.mpr h)]

/-- Witness for C9 at the boundary: available RAM equal to the 16 GB
footprint gives level 1, and 15 GB gives level 2. -/
theorem determineSleepLevel_policy_witness :
    determineSleepLevel 16 wModelA = 1 ∧ determineSleepLevel 15 wModelA = 2 :=
  ⟨(determineSleepLevel_policy 16 wModelA).1 (by norm_num [wModelA]),
   (determineSleepLevel_policy 15 wModelA).2 (by norm_num [wModelA])⟩

/-- Claim C10: with MaxAttempts at most zero, RetryWithBackoff (and
hence PollUntil) returns a nil error without invoking the operation
even once (the loop body never runs and lastErr is still nil). -/
theorem retryWithBackoff_nonpositive_attempts : ∀ (maxAttempts : Int),
    maxAttempts ≤ 0 →
    (∀ (E : Type) (fn : Nat → Option E),
      retryWithBackoff maxAttempts fn = (none, 0)) ∧
    (∀ (E : Type) (cond : Nat → Bool × Option E),
      pollUntil maxAttempts cond = (none, 0)) := by
  intro ma h
  have h0 : ma.toNat = 0 := Int.toNat_of_nonpos h
  constructor
  · intro E fn
    unfold retryWithBackoff
    rw [h0]
    rfl
  · intro E cond
    unfold pollUntil retryWithBackoff
    rw [h0]
    rfl

/-- Witness for C10: MaxAttempts -3 with an always-failing operation
and MaxAttempts 0 with a never-true condition both return success with
zero invocations. -/
theorem retryWithBackoff_nonpositive_attempts_witness :
    retryWithBackoff (-3) (fun _ => some ()) = (none, 0) ∧
    pollUntil 0 ((fun _ => (false, none)) : Nat → Bool × Option Unit) = (none, 0) :=
  ⟨(retryWithBackoff_nonpositive_attempts (-3) (by norm_num)).1 Unit (fun _ => some ()),
   (retryWithBackoff_nonpositive_attempts 0 (le_refl 0)).2 Unit (fun _ => (false, none))⟩

/-- Counterexample to claim C6: PollUntil does retry a condition whose
evaluation returns an error.  With MaxAttempts 3 and a condition that
always returns an error, the condition is invoked 3 times — not once as
the claim requires — before the error is surfaced. -/
theorem pollUntil_condErr_retried_cex :
    (pollUntil (3 : Int) (fun _ => (false, some ()))).2 = 3 ∧
    (pollUntil (3 : Int) (fun _ => (false, some ()))).2 ≠ 1 ∧
    (pollUntil (3 : Int) (fun _ => (false, some ()))).1 =
      some (PollErr.condErr ()) := by
  refine ⟨rfl, by decide, rfl⟩

/-- Claim C6 as amended: a condition error does not terminate the poll
at that evaluation; it is treated as one more failed attempt and
retried like a false condition, and once MaxAttempts is exhausted the
most recent condition error is surfaced as the failure of the poll. -/
theorem pollUntil_condErr_retried {E : Type} (n : Nat) (hn : 0 < n)
    (flags : Nat → Bool) (errs : Nat → E) :
    pollUntil (n : Int) (fun i => (flags i, some (errs i))) =
      (some (PollErr.condErr (errs (n - 1))), n) := by
  unfold pollUntil retryWithBackoff
  rw [Int.toNat_natCast]
  have hfn : ∀ i, (match ((flags i, some (errs i)) : Bool × Option E) with
      | (_, some e) => some (PollErr.condErr e)
      | (false, none) => some PollErr.conditionNotMet
      | (true, none) => none) = some (PollErr.condErr (errs i)) := by
    intro i
    cases flags i <;> rfl
  rw [retryAux_congr hfn n 0 none]
  have := retryAux_allFail (fun i => PollErr.condErr (errs i)) n 0 none hn
  simpa using this

/-- Witness for C6 as amended: a condition erroring on every attempt
with MaxAttempts 2 is invoked twice and the second error is surfaced. -/
theorem pollUntil_condErr_retried_witness :
    pollUntil (2 : Int) (fun i => (false, some i)) =
      (some (PollErr.condErr 1), 2) :=
  pollUntil_condErr_retried 2 (by decide) (fun _ => false) (fun i => i)

/-- Counterexample to claim C7: the mark operations other than
MarkActive do not clear the last-active timestamp.  After MarkActive at
time 5 followed by MarkSleeping, the status is not Active yet the
timestamp is still present. -/
theorem markMutations_timestamp_cex :
    (applyMutations wModelB
      [StatusMutation.mkActive 5, StatusMutation.mkSleeping]).status ≠
        ModelStatus.active ∧
    (applyMutations wModelB
      [StatusMutation.mkActive 5, StatusMutation.mkSleeping]).lastActive =
        some 5 := by
  refine ⟨by decide, rfl⟩

/-- Claim C7 as amended: the last-active timestamp is set exactly by a
transition to Active (MarkActive records the transition time) and is
retained unchanged — not cleared — by every other status mutation, so
it records the most recent activation rather than tracking the current
status. -/
theorem markMutation_lastActive : ∀ (m : Model) (now : Nat),
    ((m.markActive now).status = ModelStatus.active ∧
      (m.markActive now).lastActive = some now) ∧
    m.markSleeping.lastActive = m.lastActive ∧
    m.markSwitching.lastActive = m.lastActive ∧
    m.markError.lastActive = m.lastActive ∧
    m.markDisabled.lastActive = m.lastActive :=
  fun _ _ => ⟨⟨rfl, rfl⟩, rfl, rfl, rfl, rfl⟩

/-- Claim C1: when a backend is believed active and the Sleep client
call on it fails, SwitchModel aborts the switch: the current backend is
marked Error, the "failed to sleep current model" error is returned,
the only client call issued is that single Sleep on the current backend
(so the target receives no WakeUp, Sleep or Health call), the target's
entry is unchanged, and the active id is unchanged. -/
theorem switchModel_sleepFail_aborts (c : VLLMClient) (avail : Rat) (mr : Int)
    (now : Nat) (st : SwitcherState) (targetID : String) (mA mT : Model)
    (ha : st.activeModel ≠ "")
    (hfa : findModel st st.activeModel = some mA)
    (hft : findModel st targetID = some mT)
    (hdis : mT.startupMode ≠ StartupMode.disabled)
    (hne : targetID ≠ st.activeModel)
    (hs : c.sleepOk mA.containerName mA.port (determineSleepLevel avail mA) = false) :
    ∃ st2, switchModel c avail mr now st targetID =
        some (st2,
          [ClientCall.sleep mA.containerName mA.port (determineSleepLevel avail mA)],
          some SwitchError.sleepFailed) ∧
      st2.activeModel = st.activeModel ∧
      findModel st2 targetID = some mT ∧
      findModel st2 st.activeModel = some { mA with status := ModelStatus.error } := by
  refine ⟨updateModel (updateModel st st.activeModel Model.markSwitching)
      st.activeModel Model.markError, ?_, ?_, ?_, ?_⟩
  · unfold switchModel
    rw [hft]
    simp only [if_neg hdis, if_neg hne, if_neg ha, sleepModel_sleepFail hfa hs]
  · rfl
  · rw [findModel_updateModel_ne (fun m => markError_id m) hne,
      findModel_updateModel_ne (fun m => markSwitching_id m) hne, hft]
  · rw [findModel_updateModel_self (fun m => markError_id m)
      (findModel_updateModel_self (fun m => markSwitching_id m) hfa)]
    rfl

/-- Witness for C1: with a client whose Sleep always fails, switching
from "a" to "b" issues a single Sleep on "a", marks "a" Error, leaves
"b" and the active id untouched, and reports the sleep failure. -/
theorem switchModel_sleepFail_aborts_witness :
    ∃ st2, switchModel wClientSleepFail 64 450 7 wState "b" =
        some (st2,
          [ClientCall.sleep wModelA.containerName wModelA.port
            (determineSleepLevel 64 wModelA)],
          some SwitchError.sleepFailed) ∧
      st2.activeModel = wState.activeModel ∧
      findModel st2 "b" = some wModelB ∧
      findModel st2 wState.activeModel =
        some { wModelA with status := ModelStatus.error } :=
  switchModel_sleepFail_aborts wClientSleepFail 64 450 7 wState "b" wModelA wModelB
    (by decide) (by rfl) (by rfl) (by decide) (by decide) (by decide)

/-- Claim C2: when the switch reaches the target and the WakeUp call on
it fails, SwitchModel performs the best-effort rollback wake of the
previously-active backend (the trace shows the WakeUp on the previous
backend issued right after the failed WakeUp on the target, and the
returned error is the wake-up failure whatever the rollback's own
outcome), returns the "failed to activate target model" error, and the
active id still names the previous backend. -/
theorem switchModel_wakeFail_rollsBack (c : VLLMClient) (avail : Rat) (mr : Int)
    (now : Nat) (st : SwitcherState) (targetID : String) (mA mT : Model)
    (ha : st.activeModel ≠ "")
    (hfa : findModel st st.activeModel = some mA)
    (hft : findModel st targetID = some mT)
    (hdis : mT.startupMode ≠ StartupMode.disabled)
    (hne : targetID ≠ st.activeModel)
    (hsleep : c.sleepOk mA.containerName mA.port (determineSleepLevel avail mA) = true)
    (hwake : c.wakeUpOk mT.containerName mT.port = false) :
    ∃ st3 n tr3,
      switchModel c avail mr now st targetID =
        some (st3,
          (ClientCall.sleep mA.containerName mA.port (determineSleepLevel avail mA) ::
            List.replicate n (ClientCall.isSleeping mA.containerName mA.port)) ++
          [ClientCall.wakeUp mT.containerName mT.port] ++
          (ClientCall.wakeUp mA.containerName mA.port :: tr3),
          some (SwitchError.activateFailed ActivateError.wakeUpFailed)) ∧
      st3.activeModel = st.activeModel := by
  obtain ⟨n, hsleepEq⟩ := sleepModel_sleepOk hfa hsleep
  have hft1 : findModel (updateModel (updateModel st st.activeModel
      Model.markSwitching) st.activeModel Model.markSleeping) targetID = some mT := by
    rw [findModel_updateModel_ne (fun m => markSleeping_id m) hne,
      findModel_updateModel_ne (fun m => markSwitching_id m) hne, hft]
  have hact := activateModel_wakeFail c mr now hft1 hwake
  have hfa2 : findModel (updateModel (updateModel (updateModel (updateModel st
      st.activeModel Model.markSwitching) st.activeModel Model.markSleeping)
      targetID Model.markSwitching) targetID Model.markError) st.activeModel =
      some (mA.markSwitching.markSleeping) := by
    rw [findModel_updateModel_ne (fun m => markError_id m) (Ne.symm hne),
      findModel_updateModel_ne (fun m => markSwitching_id m) (Ne.symm hne),
      findModel_updateModel_self (fun m => markSleeping_id m)
        (findModel_updateModel_self (fun m => markSwitching_id m) hfa)]
  obtain ⟨st3, tr3, r3, hroll, hactive3, _⟩ :=
    activateModel_shape c mr now hfa2
  refine ⟨st3, n, tr3, ?_, ?_⟩
  · unfold switchModel
    rw [hft]
    simp only [if_neg hdis, if_neg hne, if_neg ha, hsleepEq, hact, hroll]
    rfl
  · rw [hactive3]
    rfl

/-- Witness for C2: with a client whose WakeUp always fails (so the
rollback wake itself also fails), switching from "a" to "b" records the
rollback WakeUp on "a", surfaces only the target wake-up failure, and
leaves the active id at "a". -/
theorem switchModel_wakeFail_rollsBack_witness :
    ∃ st3 n tr3,
      switchModel wClientWakeFail 64 450 7 wState "b" =
        some (st3,
          (ClientCall.sleep wModelA.containerName wModelA.port
              (determineSleepLevel 64 wModelA) ::
            List.replicate n (ClientCall.isSleeping wModelA.containerName wModelA.port)) ++
          [ClientCall.wakeUp wModelB.containerName wModelB.port] ++
          (ClientCall.wakeUp wModelA.containerName wModelA.port :: tr3),
          some (SwitchError.activateFailed ActivateError.wakeUpFailed)) ∧
      st3.activeModel = wState.activeModel :=
  switchModel_wakeFail_rollsBack wClientWakeFail 64 450 7 wState "b" wModelA wModelB
    (by decide) (by rfl) (by rfl) (by decide) (by decide) (by decide) (by decide)

/-- Counterexample to claim C3: after a successful WakeUp on the target
whose health poll then exhausts its budget, SwitchModel does attempt a
rollback wake of the previously-active backend — the claim's assertion
that no rollback wake happens in this branch is false.  With one health
retry, the trace contains a WakeUp on "ca" (the previous backend) after
the failed health poll on "cb". -/
theorem switchModel_healthFail_rollback_cex :
    switchModel wClientHealthFail 64 1 7 wState "b" =
      some ({ models := [{ wModelA with status := ModelStatus.error },
                { wModelB with status := ModelStatus.error }, wModelD],
              activeModel := "a" },
        [ClientCall.sleep "ca" 8000 1, ClientCall.isSleeping "ca" 8000,
          ClientCall.wakeUp "cb" 8000, ClientCall.health "cb" 8000,
          ClientCall.wakeUp "ca" 8000, ClientCall.health "ca" 8000],
        some (SwitchError.activateFailed ActivateError.notHealthy)) ∧
    ClientCall.wakeUp "ca" 8000 ∈
      [ClientCall.sleep "ca" 8000 1, ClientCall.isSleeping "ca" 8000,
        ClientCall.wakeUp "cb" 8000, ClientCall.health "cb" 8000,
        ClientCall.wakeUp "ca" 8000, ClientCall.health "ca" 8000] := by
  refine ⟨by decide, by decide⟩

/-- Claim C3 as amended: when the target's WakeUp succeeds but the
health poll exhausts its retry budget, the target is marked Error and
the "failed to activate target model: model failed to become healthy"
error is returned; as for every activation failure, a best-effort
rollback wake of the previously-active backend IS attempted (visible as
the WakeUp on the previous backend in the trace), and the active id is
unchanged. -/
theorem switchModel_healthFail_marksError (c : VLLMClient) (avail : Rat) (mr : Int)
    (now : Nat) (st : SwitcherState) (targetID : String) (mA mT : Model)
    (ha : st.activeModel ≠ "")
    (hfa : findModel st st.activeModel = some mA)
    (hft : findModel st targetID = some mT)
    (hdis : mT.startupMode ≠ StartupMode.disabled)
    (hne : targetID ≠ st.activeModel)
    (hsleep : c.sleepOk mA.containerName mA.port (determineSleepLevel avail mA) = true)
    (hwake : c.wakeUpOk mT.containerName mT.port = true)
    (hhealth : ∀ i, c.health mT.containerName mT.port i ≠ some true) :
    ∃ st3 n tr3,
      switchModel c avail mr now st targetID =
        some (st3,
          (ClientCall.sleep mA.containerName mA.port (determineSleepLevel avail mA) ::
            List.replicate n (ClientCall.isSleeping mA.containerName mA.port)) ++
          (ClientCall.wakeUp mT.containerName mT.port ::
            List.replicate mr.toNat (ClientCall.health mT.containerName mT.port)) ++
          (ClientCall.wakeUp mA.containerName mA.port :: tr3),
          some (SwitchError.activateFailed ActivateError.notHealthy)) ∧
      findModel st3 targetID = some { mT with status := ModelStatus.error } ∧
      st3.activeModel = st.activeModel := by
  obtain ⟨n, hsleepEq⟩ := sleepModel_sleepOk hfa hsleep
  have hft1 : findModel (updateModel (updateModel st st.activeModel
      Model.markSwitching) st.activeModel Model.markSleeping) targetID = some mT := by
    rw [findModel_updateModel_ne (fun m => markSleeping_id m) hne,
      findModel_updateModel_ne (fun m => markSwitching_id m) hne, hft]
  have hact := activateModel_healthFail c mr now hft1 hwake hhealth
  have hfa2 : findModel (updateModel (updateModel (updateModel (updateModel st
      st.activeModel Model.markSwitching) st.activeModel Model.markSleeping)
      targetID Model.markSwitching) targetID Model.markError) st.activeModel =
      some (mA.markSwitching.markSleeping) := by
    rw [findModel_updateModel_ne (fun m => markError_id m) (Ne.symm hne),
      findModel_updateModel_ne (fun m => markSwitching_id m) (Ne.symm hne),
      findModel_updateModel_self (fun m => markSleeping_id m)
        (findModel_updateModel_self (fun m => markSwitching_id m) hfa)]
  obtain ⟨st3, tr3, r3, hroll, hactive3, hpres⟩ :=
    activateModel_shape c mr now hfa2
  refine ⟨st3, n, tr3, ?_, ?_, ?_⟩
  · unfold switchModel
    rw [hft]
    simp only [if_neg hdis, if_neg hne, if_neg ha, hsleepEq, hact, hroll]
    rfl
  · rw [hpres targetID hne,
      findModel_updateModel_self (fun m => markError_id m)
        (findModel_updateModel_self (fun m => markSwitching_id m) hft1)]
    rfl
  · rw [hactive3]
    rfl

/-- Witness for C3 as amended: the concrete run of the counterexample
scenario, obtained from the general theorem. -/
theorem switchModel_healthFail_marksError_witness :
    ∃ st3 n tr3,
      switchModel wClientHealthFail 64 1 7 wState "b" =
        some (st3,
          (ClientCall.sleep wModelA.containerName wModelA.port
              (determineSleepLevel 64 wModelA) ::
            List.replicate n (ClientCall.isSleeping wModelA.containerName wModelA.port)) ++
          (ClientCall.wakeUp wModelB.containerName wModelB.port ::
            List.replicate (1 : Int).toNat
              (ClientCall.health wModelB.containerName wModelB.port)) ++
          (ClientCall.wakeUp wModelA.containerName wModelA.port :: tr3),
          some (SwitchError.activateFailed ActivateError.notHealthy)) ∧
      findModel st3 "b" = some { wModelB with status := ModelStatus.error } ∧
      st3.activeModel = wState.activeModel :=
  switchModel_healthFail_marksError wClientHealthFail 64 1 7 wState "b" wModelA wModelB
    (by decide) (by rfl) (by rfl) (by decide) (by decide) (by decide) (by decide)
    (fun i => by intro h; simp [wClientHealthFail, wClientGood] at h)

lemma resyncGo_models (probe : String → Nat → Option Bool) (now : Nat) :
    ∀ (l : List Model) (la : String) (ae : Bool),
    (resyncGo probe now l la ae).1 = l.map (fun m =>
      if m.startupMode = StartupMode.disabled then m
      else match probe m.containerName m.port with
        | none => m.markError
        | some true => m.markSleeping
        | some false => m.markActive now) := by
  intro l
  induction l with
  | nil => intro la ae; rfl
  | cons m rest ih =>
    intro la ae
    by_cases hd : m.startupMode = StartupMode.disabled
    · simp only [resyncGo, if_pos hd, List.map_cons, ih]
    · cases hp : probe m.containerName m.port with
      | none => simp only [resyncGo, if_neg hd, hp, List.map_cons, ih]
      | some b =>
        cases b with
        | false => simp only [resyncGo, if_neg hd, hp, List.map_cons, ih]
        | true => simp only [resyncGo, if_neg hd, hp, List.map_cons, ih]

lemma resyncGo_la_noFalse (probe : String → Nat → Option Bool) (now : Nat) :
    ∀ (l : List Model) (la : String) (ae : Bool),
    (∀ m ∈ l, m.startupMode ≠ StartupMode.disabled →
      probe m.containerName m.port ≠ some false) →
    (resyncGo probe now l la ae).2.1 = la := by
  intro l
  induction l with
  | nil => intro la ae _; rfl
  | cons m rest ih =>
    intro la ae h
    by_cases hd : m.startupMode = StartupMode.disabled
    · simp only [resyncGo, if_pos hd]
      exact ih la ae (fun m2 hm2 => h m2 (List.mem_cons_of_mem _ hm2))
    · cases hp : probe m.containerName m.port with
      | none =>
        simp only [resyncGo, if_neg hd, hp]
        exact ih la true (fun m2 hm2 => h m2 (List.mem_cons_of_mem _ hm2))
      | some b =>
        cases b with
        | false => exact absurd hp (h m (List.mem_cons_self _ _) hd)
        | true =>
          simp only [resyncGo, if_neg hd, hp]
          exact ih la ae (fun m2 hm2 => h m2 (List.mem_cons_of_mem _ hm2))

lemma resyncGo_la_unique (probe : String → Nat → Option Bool) (now : Nat)
    (Kid : String) :
    ∀ (l : List Model) (ae : Bool),
    (∀ m ∈ l, m.startupMode ≠ StartupMode.disabled →
      probe m.containerName m.port = some (m.id != Kid)) →
    (∃ mK ∈ l, mK.startupMode ≠ StartupMode.disabled ∧ mK.id = Kid) →
    (l.map Model.id).Nodup →
    (resyncGo probe now l "" ae).2.1 = Kid := by
  intro l
  induction l with
  | nil => intro ae _ hex _; exact absurd hex (by simp)
  | cons m rest ih =>
    intro ae hpr hex hnd
    rw [List.map_cons, List.nodup_cons] at hnd
    by_cases hd : m.startupMode = StartupMode.disabled
    · simp only [resyncGo, if_pos hd]
      obtain ⟨mK, hmem, hKnd, hKid⟩ := hex
      rcases List.mem_cons.mp hmem with rfl | hmem2
      · exact absurd hd hKnd
      · exact ih ae (fun m2 hm2 => hpr m2 (List.mem_cons_of_mem _ hm2))
          ⟨mK, hmem2, hKnd, hKid⟩ hnd.2
    · have hp := hpr m (List.mem_cons_self _ _) hd
      by_cases hK : m.id = Kid
      · have hp2 : probe m.containerName m.port = some false := by
          rw [hp, hK]
          simp
        simp only [resyncGo, if_neg hd, hp2, if_true]
        rw [resyncGo_la_noFalse probe now rest m.id ae ?noFalse]
        · exact hK
        case noFalse =>
          intro m2 hm2 hnd2
          rw [hpr m2 (List.mem_cons_of_mem _ hm2) hnd2]
          have hne2 : m2.id ≠ Kid := by
            intro hEq
            exact hnd.1 (by rw [hK, ← hEq]; exact List.mem_map_of_mem _ hm2)
          simp [hne2]
      · have hp2 : probe m.containerName m.port = some true := by
          rw [hp]
          simp [hK]
        simp only [resyncGo, if_neg hd, hp2]
        obtain ⟨mK, hmem, hKnd, hKid⟩ := hex
        rcases List.mem_cons.mp hmem with rfl | hmem2
        · exact absurd hKid hK
        · exact ih ae (fun m2 hm2 => hpr m2 (List.mem_cons_of_mem _ hm2))
            ⟨mK, hmem2, hKnd, hKid⟩ hnd.2

/-- Claim C5: one reconciliation pass converges.  When the IsSleeping
probe reports exactly one backend (the one with id Kid, present and not
disabled) as awake and every other probed (non-disabled) backend as
sleeping, the pass sets the active id to Kid, marks that backend Active
and every other non-disabled backend Sleeping, leaving disabled ones
untouched; and when no probe reports a backend awake, the pass clears
the active id to the empty string. -/
theorem resyncModels_convergence :
    (∀ (probe : String → Nat → Option Bool) (now : Nat) (st : SwitcherState)
      (Kid : String),
      (∀ m ∈ st.models, m.startupMode ≠ StartupMode.disabled →
        probe m.containerName m.port = some (m.id != Kid)) →
      (∃ mK ∈ st.models, mK.startupMode ≠ StartupMode.disabled ∧ mK.id = Kid) →
      (st.models.map Model.id).Nodup →
      (resyncModels probe now st).1.activeModel = Kid ∧
      (resyncModels probe now st).1.models = st.models.map (fun m =>
        if m.startupMode = StartupMode.disabled then m
        else if m.id = Kid then m.markActive now else m.markSleeping)) ∧
    (∀ (probe : String → Nat → Option Bool) (now : Nat) (st : SwitcherState),
      (∀ m ∈ st.models, m.startupMode ≠ StartupMode.disabled →
        probe m.containerName m.port ≠ some false) →
      (resyncModels probe now st).1.activeModel = "") := by
  constructor
  · intro probe now st Kid hpr hex hnd
    have hla := resyncGo_la_unique probe now Kid st.models false hpr hex hnd
    constructor
    · show (if (resyncGo probe now st.models "" false).2.1 ≠ "" then
          (resyncGo probe now st.models "" false).2.1 else "") = Kid
      rw [hla]
      by_cases hK : Kid = ""
      · simp [hK]
      · simp [hK]
    · show (resyncGo probe now st.models "" false).1 = _
      rw [resyncGo_models probe now st.models "" false]
      apply List.map_congr_left
      intro m hm
      by_cases hd : m.startupMode = StartupMode.disabled
      · simp [hd]
      · have hp := hpr m hm hd
        by_cases hK : m.id = Kid
        · have hp2 : probe m.containerName m.port = some false := by
            rw [hp, hK]
            simp
          simp [hd, hp2, hK]
        · have hp2 : probe m.containerName m.port = some true := by
            rw [hp]
            simp [hK]
          simp [hd, hp2, hK]
  · intro probe now st h
    have hla := resyncGo_la_noFalse probe now st.models "" false h
    show (if (resyncGo probe now st.models "" false).2.1 ≠ "" then
        (resyncGo probe now st.models "" false).2.1 else "") = ""
    rw [hla]
    simp

/-- Witness for C5: a probe reporting only container "cb" awake drives
the concrete registry to active id "b" with "a" sleeping and the
disabled "d" untouched; an all-asleep probe clears the active id. -/
theorem resyncModels_convergence_witness :
    ((resyncModels (fun cn _ => some (cn != "cb")) 9 wState).1.activeModel = "b" ∧
      (resyncModels (fun cn _ => some (cn != "cb")) 9 wState).1.models =
        wState.models.map (fun m =>
          if m.startupMode = StartupMode.disabled then m
          else if m.id = "b" then m.markActive 9 else m.markSleeping)) ∧
    (resyncModels (fun _ _ => some true) 9 wState).1.activeModel = "" :=
  ⟨resyncModels_convergence.1 (fun cn _ => some (cn != "cb")) 9 wState "b"
      (by decide) (by decide) (by decide),
    resyncModels_convergence.2 (fun _ _ => some true) 9 wState (by decide)⟩

end HomeGPT
